import Mathlib

/-!
Verification development for the weverseAPI repository.

Shallow embedding of the core subsystem described in the spec:
the `WeverseClient` (login, refreshAccessToken, the resource operations
with their 401 refresh-and-retry behaviour, from src/lib/weverseClient.js),
the `Cache` wrapper over node-cache (src, `lib/cache.js` part) and the
express `cacheMiddleware` (src, server part).

Network I/O is modelled by environments: a resource environment gives
the outcome of the n-th resource HTTP call and the n-th refresh call;
login and refresh take the HTTP results of their calls as parameters.
Asynchronous recursion is modelled with explicit fuel: a run result of
`none` means the recursion did not finish within the given fuel.
-/

namespace Weverse

/-- JavaScript values, as far as the repository's control flow inspects
them: only truthiness and equality matter to the embedded code, plus an
opaque identity for objects (payloads are passed through opaquely). -/
inductive JsValue where
  | vNull : JsValue
  | vUndefined : JsValue
  | vBool : Bool → JsValue
  | vNum : Int → JsValue
  | vStr : String → JsValue
  | vObj : Nat → JsValue
deriving DecidableEq, Repr

/-- JavaScript truthiness: null, undefined, false, 0 and the empty string
are falsy; objects are always truthy. -/
def JsValue.truthy : JsValue → Bool
  | .vNull => false
  | .vUndefined => false
  | .vBool b => b
  | .vNum n => decide (n ≠ 0)
  | .vStr s => decide (s ≠ "")
  | .vObj _ => true

/-- Truthiness of a JS variable holding null/undefined or a string
(`this.token`, `this.refreshToken`, `response.data.access_token`):
absent and the empty string are falsy. -/
def strTruthy : Option String → Bool
  | none => false
  | some s => decide (s ≠ "")

/-- The client's token state: `this.token` and `this.refreshToken` in
`WeverseClient`. `none` models null/undefined. -/
structure Session where
  token : Option String
  refreshToken : Option String
deriving DecidableEq, Repr

/-- The JSON body of a token-issuing response
(`response.data.access_token`, `response.data.refresh_token`);
`none` models an absent field. -/
structure TokenResponse where
  access_token : Option String
  refresh_token : Option String
deriving DecidableEq, Repr

/-- Result of one axios call: `ok` is a resolved response (its `data`),
`err` is a rejected promise carrying `error.response.status` when a
response was received (`none` models a network failure with no response)
and `error.message`. -/
inductive CallResult (α : Type) where
  | ok : α → CallResult α
  | err : Option Nat → String → CallResult α
deriving DecidableEq, Repr

/-- Outcome of one resource operation: the returned `response.data`
payload, or a thrown `Error` with its message. -/
inductive OpOutcome where
  | success : JsValue → OpOutcome
  | thrown : String → OpOutcome
deriving DecidableEq, Repr

/-- Environment of a resource operation: `resource n` is the outcome of
the (n+1)-th HTTP call the operation issues, `refresh n` the return
value of the (n+1)-th `refreshAccessToken()` call. -/
structure ResEnv where
  resource : Nat → CallResult JsValue
  refresh : Nat → Bool

/-- Trace of one resource-operation run: the final outcome (`none` when
the fuel ran out before the recursion finished), the list of issued
resource requests in order, and the number of `refreshAccessToken`
calls. -/
structure RunResult (α : Type) where
  result : Option OpOutcome
  requests : List α
  refreshCalls : Nat
deriving DecidableEq, Repr

/-- The shared shape of every resource operation in `WeverseClient`
(getCommunities, getPost, getPosts, getComments, getArtists, getMedia,
getNotifications), embedded from the source: issue the GET; on success
return `response.data`; on a rejected call, if the error carries a
response with status 401, call `refreshAccessToken()`, and if that
returns true re-invoke the same operation with identical arguments
(an unconditional recursive call); otherwise throw
`new Error(ctx + error.message)`. `req` is the request the operation
issues (identical on every attempt, since the recursion passes the same
arguments), `acc`/`f` accumulate issued requests and refresh calls. -/
def runOp {α : Type} (ctx : String) (req : α) (env : ResEnv) :
    Nat → List α → Nat → RunResult α
  | 0, acc, f => ⟨none, acc, f⟩
  | fuel + 1, acc, f =>
    match env.resource acc.length with
    | .ok payload => ⟨some (.success payload), acc ++ [req], f⟩
    | .err status msg =>
      if status = some 401 then
        if env.refresh f then
          runOp ctx req env fuel (acc ++ [req]) (f + 1)
        else
          ⟨some (.thrown (ctx ++ msg)), acc ++ [req], f + 1⟩
      else
        ⟨some (.thrown (ctx ++ msg)), acc ++ [req], f⟩

/-- `WeverseClient.getCommunities()`: a GET of `/v1/communities` under
the retry-on-401 shape, wrapping failures as
"Failed to get communities: ...". -/
def getCommunities (env : ResEnv) (fuel : Nat) : RunResult String :=
  runOp "Failed to get communities: " "/v1/communities" env fuel [] 0

/-- The request `WeverseClient.getPosts` issues: path
`/v1/community/COMMUNITYID/posts` and query parameters. -/
structure PostsRequest where
  path : String
  page : Nat
  size : Nat
  sort : String
  type : Option String
deriving DecidableEq, Repr

/-- JavaScript `String.prototype.toUpperCase` on the ASCII strings the
client passes as a type filter: uppercase every character. -/
def jsToUpperCase (s : String) : String :=
  ⟨s.data.map Char.toUpper⟩

/-- Request construction in `WeverseClient.getPosts(communityId, page =
1, size = 20, type = 'all')`: params are page, size, sort: 'RECENT',
and `params.type = type.toUpperCase()` only when `type` is truthy and
not 'all'. `none` arguments model parameters the caller did not supply,
so the JS default-parameter values apply. -/
def getPostsReq (communityId : String) (page size : Option Nat)
    (ty : Option String) : PostsRequest :=
  let p := page.getD 1
  let s := size.getD 20
  let t := ty.getD "all"
  { path := "/v1/community/" ++ communityId ++ "/posts"
    page := p
    size := s
    sort := "RECENT"
    type := if t ≠ "" && t ≠ "all" then some (jsToUpperCase t) else none }

/-- `WeverseClient.getPosts`: the constructed request under the
retry-on-401 shape, wrapping failures as "Failed to get posts: ...". -/
def getPosts (communityId : String) (page size : Option Nat)
    (ty : Option String) (env : ResEnv) (fuel : Nat) : RunResult PostsRequest :=
  runOp "Failed to get posts: " (getPostsReq communityId page size ty) env fuel [] 0

/-- The HTTP calls `WeverseClient.login(email, password)` performs, as
seen by its control flow: the GET of the login-initialize endpoint
(its payload is only logged) and the POST of the secure-login endpoint
with the RSA-OAEP-encrypted password (encryption is pure and does not
affect the branching, so it is not modelled further). -/
structure LoginEnv where
  initResult : CallResult Unit
  loginResult : CallResult TokenResponse

/-- `WeverseClient.login`, embedded from the source: any rejected call
is caught and the method returns false leaving `this.token` and
`this.refreshToken` untouched; when the login POST resolves, if
`loginResponse.data.access_token` is truthy both fields are assigned
from the response and true is returned, otherwise false is returned
with the state untouched. The returned pair is (return value, state of
the session after the call). -/
def login (s : Session) (env : LoginEnv) : Bool × Session :=
  match env.initResult with
  | .err _ _ => (false, s)
  | .ok _ =>
    match env.loginResult with
    | .err _ _ => (false, s)
    | .ok d =>
      if strTruthy d.access_token then
        (true, { token := d.access_token, refreshToken := d.refresh_token })
      else
        (false, s)

/-- `WeverseClient.refreshAccessToken`, embedded from the source: if
`this.refreshToken` is falsy return false; otherwise POST the token
endpoint (`exchange` is that call's result); a rejected call is caught
and false is returned; on a resolved call, if
`response.data.access_token` is truthy assign `this.token`, assign
`this.refreshToken` only when `response.data.refresh_token` is truthy,
and return true; otherwise return false. State is untouched on every
false path. -/
def refreshAccessToken (s : Session) (exchange : CallResult TokenResponse) :
    Bool × Session :=
  if strTruthy s.refreshToken then
    match exchange with
    | .err _ _ => (false, s)
    | .ok d =>
      if strTruthy d.access_token then
        let s1 : Session := { s with token := d.access_token }
        if strTruthy d.refresh_token then
          (true, { s1 with refreshToken := d.refresh_token })
        else
          (true, s1)
      else
        (false, s)
  else
    (false, s)

/-- One stored node-cache entry: the value and its expiry instant in
milliseconds (node-cache stores `t = Date.now() + ttl * 1000`, with
`t = 0` meaning no expiry, which node-cache uses when `ttl === 0`). -/
structure Entry where
  value : JsValue
  expiry : Nat
deriving DecidableEq, Repr

/-- The underlying node-cache store: a map from keys to entries. -/
structure NodeCache where
  store : String → Option Entry

/-- node-cache `get`, modelled from the library the Cache wrapper
delegates to: a present entry is returned while `t === 0` or
`t >= Date.now()`; an entry with `0 < t < Date.now()` is expired and
treated as absent (the library also deletes it then; only the returned
value matters to the claims, so the deletion is not tracked). `now` is
`Date.now()` in milliseconds. -/
def NodeCache.nGet (c : NodeCache) (now : Nat) (key : String) : Option JsValue :=
  match c.store key with
  | none => none
  | some e => if e.expiry ≠ 0 && decide (e.expiry < now) then none else some e.value

/-- Default TTL of the Cache wrapper (`DEFAULT_TTL = 300` seconds). -/
def DEFAULT_TTL : Nat := 300

/-- `Cache.set(key, value, ttl = DEFAULT_TTL)`: delegates to node-cache
`set`, which overwrites any entry for the key with expiry
`Date.now() + ttl * 1000` (no expiry when ttl is 0). `ttl = none`
models a call that does not supply the third argument, so the JS
default parameter `DEFAULT_TTL` applies. -/
def Cache.set (c : NodeCache) (now : Nat) (key : String) (v : JsValue)
    (ttl : Option Nat) : NodeCache :=
  let t := ttl.getD DEFAULT_TTL
  ⟨fun k => if k = key then some ⟨v, if t = 0 then 0 else now + t * 1000⟩
            else c.store k⟩

/-- `Cache.get(key)`, embedded from the source: reads node-cache, and
`if (value) return value; return null` — so an absent or expired key
yields null, and so does a present entry whose stored value is falsy. -/
def Cache.get (c : NodeCache) (now : Nat) (key : String) : JsValue :=
  match c.nGet now key with
  | some v => if v.truthy then v else .vNull
  | none => .vNull

/-- `Cache.generateKey(namespace, identifier)`: the string
`namespace + ':' + identifier`. -/
def Cache.generateKey (ns identifier : String) : String :=
  ns ++ ":" ++ identifier

/-- The terminal action of a route handler running behind
`cacheMiddleware`: it either ends the response with `res.json(data)` at
the then-current `res.statusCode`, ends it with `res.send(body)` (the
rss and widget routes do), or fails before producing a response
(thrown error, timeout). -/
inductive HandlerAction where
  | json : Nat → JsValue → HandlerAction
  | send : Nat → String → HandlerAction
  | noResponse : String → HandlerAction
deriving DecidableEq, Repr

/-- What the client observes at the end of a request: a completed JSON
response (status, data), a completed non-JSON response (status, body),
or no completed response. -/
inductive ResponseEnd where
  | jsonEnd : Nat → JsValue → ResponseEnd
  | sendEnd : Nat → String → ResponseEnd
  | failed : String → ResponseEnd
deriving DecidableEq, Repr

/-- A response completed with HTTP status 200, whichever channel ended
it. -/
def ResponseEnd.completed200 : ResponseEnd → Bool
  | .jsonEnd s _ => decide (s = 200)
  | .sendEnd s _ => decide (s = 200)
  | .failed _ => false

/-- `cacheMiddleware(namespace)`, embedded from the source: compute
`key = generateKey(namespace, url)`; if `cache.get(key)` is truthy,
respond `res.json(cachedData)` (status 200) without running the
handler; otherwise override `res.json` so that, when the handler ends
the response through it with `res.statusCode === 200`, `cache.set(key,
data)` runs first (with the default TTL) — a handler ending the
response through `res.send`, or not responding at all, never touches
the cache. Returns the cache after the request and the observed end of
the response. -/
def cacheMiddleware (c : NodeCache) (now : Nat) (ns url : String)
    (handler : HandlerAction) : NodeCache × ResponseEnd :=
  let key := Cache.generateKey ns url
  let cachedData := Cache.get c now key
  if cachedData.truthy then
    (c, .jsonEnd 200 cachedData)
  else
    match handler with
    | .json status data =>
      if status = 200 then (Cache.set c now key data none, .jsonEnd 200 data)
      else (c, .jsonEnd status data)
    | .send status body => (c, .sendEnd status body)
    | .noResponse msg => (c, .failed msg)

/-! Concrete environments used by witnesses and counterexamples. -/

/-- An upstream that answers 401 on every resource call while every
refresh call succeeds. -/
def env401 : ResEnv :=
  ⟨fun _ => .err (some 401) "Request failed with status code 401", fun _ => true⟩

/-- An upstream that answers 401 on the first resource call and 200 on
every later one; refresh succeeds. -/
def env401then200 : ResEnv :=
  ⟨fun n => if n = 0 then .err (some 401) "Request failed with status code 401"
            else .ok (.vObj 7),
   fun _ => true⟩

/-- An upstream that answers 500 on every resource call; refresh would
fail, but is never reached. -/
def env500 : ResEnv :=
  ⟨fun _ => .err (some 500) "Request failed with status code 500", fun _ => false⟩

/-- An upstream whose first resource call succeeds. -/
def envOk : ResEnv := ⟨fun _ => .ok (.vObj 1), fun _ => false⟩

/-- The cache with no entries. -/
def emptyCache : NodeCache := ⟨fun _ => none⟩

/-! Theorems settling the claims. -/

/-- Claim C1 (failing on the code): with the upstream answering 401 on
both attempts (indeed on every attempt) and every refresh succeeding,
the claim demands exactly one refresh call, exactly two resource calls
and the second 401 error as final result. The code instead re-invokes
the operation after every successful refresh: within fuel 3 it has
already issued three resource calls and three refresh calls, and for
every amount of fuel the recursion has not produced any result — the
operation does not terminate on this input. -/
theorem getCommunities_unbounded_recursion_on_persistent_401 :
    getCommunities env401 3 =
      ⟨none, ["/v1/communities", "/v1/communities", "/v1/communities"], 3⟩ ∧
    ∀ fuel : Nat, (getCommunities env401 fuel).result = none := by
  refine ⟨rfl, ?_⟩
  intro fuel
  have h : ∀ (fuel : Nat) (acc : List String) (f : Nat),
      (runOp "Failed to get communities: " "/v1/communities" env401 fuel acc f).result
        = none := by
    intro fuel
    induction fuel with
    | zero => intro acc f; rfl
    | succ n ih => intro acc f; simpa [runOp, env401] using ih (acc ++ ["/v1/communities"]) (f + 1)
  exact h fuel [] 0

/-- Claim C2: if the upstream returns 401 on the first attempt and 200
on the second, and the refresh succeeds, then exactly one refresh call
and exactly two resource calls occur and the operation returns the 200
payload — for any sufficient fuel, so the run terminates. -/
theorem getCommunities_retry_success_path (env : ResEnv) (p : JsValue) (m : String)
    (h0 : env.resource 0 = .err (some 401) m)
    (h1 : env.resource 1 = .ok p)
    (hr : env.refresh 0 = true) :
    ∀ fuel : Nat, 2 ≤ fuel →
      getCommunities env fuel =
        ⟨some (.success p), ["/v1/communities", "/v1/communities"], 1⟩ := by
  intro fuel hfuel
  obtain ⟨n, rfl⟩ : ∃ n, fuel = n + 2 := ⟨fuel - 2, by omega⟩
  simp [getCommunities, runOp, h0, h1, hr]

/-- Witness for C2 at a concrete environment. -/
theorem getCommunities_retry_success_path_witness :
    getCommunities env401then200 2 =
      ⟨some (.success (.vObj 7)), ["/v1/communities", "/v1/communities"], 1⟩ :=
  getCommunities_retry_success_path env401then200 (.vObj 7)
    "Request failed with status code 401" rfl rfl rfl 2 (by decide)

/-- Claim C5: a first-attempt failure whose status is not 401 (other
4xx/5xx, or a network failure with no response at all) makes the
operation throw the wrapped error immediately: one resource call, zero
refresh calls, no retry, and the thrown message is the operation
context followed by the root cause — for getPosts and for
getCommunities. -/
theorem non401_wrapped_no_refresh (cid : String) (page size : Option Nat)
    (ty : Option String) (env : ResEnv) (st : Option Nat) (m : String)
    (h0 : env.resource 0 = .err st m) (hne : st ≠ some 401)
    (fuel : Nat) (hf : 1 ≤ fuel) :
    getPosts cid page size ty env fuel =
      ⟨some (.thrown ("Failed to get posts: " ++ m)),
       [getPostsReq cid page size ty], 0⟩ ∧
    getCommunities env fuel =
      ⟨some (.thrown ("Failed to get communities: " ++ m)),
       ["/v1/communities"], 0⟩ := by
  obtain ⟨n, rfl⟩ : ∃ n, fuel = n + 1 := ⟨fuel - 1, by omega⟩
  constructor
  · simp [getPosts, runOp, h0, hne]
  · simp [getCommunities, runOp, h0, hne]

/-- Witness for C5 at a concrete 500-answering environment. -/
theorem non401_wrapped_no_refresh_witness :
    getPosts "17" none none none env500 1 =
      ⟨some (.thrown ("Failed to get posts: " ++ "Request failed with status code 500")),
       [getPostsReq "17" none none none], 0⟩ ∧
    getCommunities env500 1 =
      ⟨some (.thrown ("Failed to get communities: " ++ "Request failed with status code 500")),
       ["/v1/communities"], 0⟩ :=
  non401_wrapped_no_refresh "17" none none none env500 (some 500)
    "Request failed with status code 500" rfl (by decide) 1 (by decide)

/-- Claim C8: getPosts with no page/size/type supplied issues exactly
one GET to /v1/community/COMMUNITYID/posts with page 1, size 20, sort
RECENT and no type parameter, and getPosts with type "artist" issues
the same call with the extra parameter type ARTIST; in both runs the
upstream call succeeds on the first attempt, so exactly one request is
issued and no refresh happens. -/
theorem getPosts_request_construction (cid : String) (env : ResEnv) (p : JsValue)
    (h0 : env.resource 0 = .ok p) :
    getPosts cid none none none env 1 =
      ⟨some (.success p),
       [⟨"/v1/community/" ++ cid ++ "/posts", 1, 20, "RECENT", none⟩], 0⟩ ∧
    getPosts cid (some 1) (some 20) (some "artist") env 1 =
      ⟨some (.success p),
       [⟨"/v1/community/" ++ cid ++ "/posts", 1, 20, "RECENT", some "ARTIST"⟩], 0⟩ := by
  constructor
  · simp [getPosts, runOp, h0, getPostsReq]
  · simp [getPosts, runOp, h0, getPostsReq]
    decide

/-- Claim C3 as stated fails at a concrete input: with stored tokens
(access a0, refresh r0), an exchange that resolves with only an access
token a1 and no refresh_token field is reported as a success (true),
yet the stored refresh token stays r0 — it is not replaced by anything
the exchange returned, so success does not atomically replace both
tokens with the returned pair. -/
theorem refreshAccessToken_keeps_old_refresh_token :
    (refreshAccessToken ⟨some "a0", some "r0"⟩ (.ok ⟨some "a1", none⟩)).1 = true ∧
    (refreshAccessToken ⟨some "a0", some "r0"⟩ (.ok ⟨some "a1", none⟩)).2 =
      ⟨some "a1", some "r0"⟩ ∧
    (TokenResponse.refresh_token ⟨some "a1", none⟩) ≠ some "r0" := by
  decide

/-- Claim C3 amended: refreshAccessToken returns false leaving the
session untouched when no (truthy) refresh token is stored, when the
exchange call rejects, and when the exchange resolves without a truthy
access_token; on success it installs the returned access token and
replaces the stored refresh token only when the response carries a
truthy refresh_token, keeping the old refresh token otherwise. -/
theorem refreshAccessToken_spec (s : Session) (exchange : CallResult TokenResponse) :
    (strTruthy s.refreshToken = false → refreshAccessToken s exchange = (false, s)) ∧
    (∀ st m, exchange = .err st m → refreshAccessToken s exchange = (false, s)) ∧
    (∀ d, exchange = .ok d → strTruthy d.access_token = false →
        refreshAccessToken s exchange = (false, s)) ∧
    (∀ d, exchange = .ok d → strTruthy d.access_token = true →
        strTruthy s.refreshToken = true →
        refreshAccessToken s exchange =
          (true, { token := d.access_token,
                   refreshToken := if strTruthy d.refresh_token then d.refresh_token
                                   else s.refreshToken })) := by
  refine ⟨?_, ?_, ?_, ?_⟩
  · intro h
    simp [refreshAccessToken, h]
  · rintro st m rfl
    by_cases h : strTruthy s.refreshToken <;> simp [refreshAccessToken, h]
  · rintro d rfl ha
    by_cases h : strTruthy s.refreshToken <;> simp [refreshAccessToken, h, ha]
  · rintro d rfl ha hr
    by_cases hd : strTruthy d.refresh_token <;>
      simp [refreshAccessToken, hr, ha, hd]

/-- Witness for the amended C3: a refresh with no stored refresh token
fails, and a successful exchange carrying both tokens replaces both. -/
theorem refreshAccessToken_spec_witness :
    refreshAccessToken ⟨some "a0", none⟩ (.ok ⟨some "a1", some "r1"⟩) =
      (false, ⟨some "a0", none⟩) ∧
    refreshAccessToken ⟨some "a0", some "r0"⟩ (.ok ⟨some "a1", some "r1"⟩) =
      (true, ⟨some "a1", some "r1"⟩) := by
  constructor
  · exact (refreshAccessToken_spec ⟨some "a0", none⟩ (.ok ⟨some "a1", some "r1"⟩)).1 rfl
  · have h := (refreshAccessToken_spec ⟨some "a0", some "r0"⟩
      (.ok ⟨some "a1", some "r1"⟩)).2.2.2 ⟨some "a1", some "r1"⟩ rfl (by decide) (by decide)
    simpa using h

/-- Claim C4: login never throws (it is a total function into a boolean
and the resulting session); whenever it returns false — which it does
when the initialize call fails, when the secure-login call fails with
any status or with no response, and when the response carries no truthy
access_token — the session is left exactly as it was (in particular an
unset session stays unset); and it returns true only when the upstream
resolved the login call with a truthy access_token. -/
theorem login_spec (s : Session) (env : LoginEnv) :
    ((login s env).1 = false → (login s env).2 = s) ∧
    ((login s env).1 = true →
        ∃ d, env.loginResult = .ok d ∧ strTruthy d.access_token = true) ∧
    (∀ st m, env.loginResult = .err st m → (login s env).1 = false) ∧
    (∀ st m, env.initResult = .err st m → (login s env).1 = false) ∧
    (∀ d, env.loginResult = .ok d → strTruthy d.access_token = false →
        (login s env).1 = false) := by
  obtain ⟨ir, lr⟩ := env
  refine ⟨?_, ?_, ?_, ?_, ?_⟩
  · cases ir with
    | err st m => simp [login]
    | ok u =>
      cases lr with
      | err st m => simp [login]
      | ok d =>
        by_cases h : strTruthy d.access_token <;> simp [login, h]
  · cases ir with
    | err st m => simp [login]
    | ok u =>
      cases lr with
      | err st m => simp [login]
      | ok d =>
        by_cases h : strTruthy d.access_token <;> simp [login, h]
  · rintro st m rfl
    cases ir with
    | err st' m' => simp [login]
    | ok u => simp [login]
  · rintro st m rfl
    simp [login]
  · rintro d rfl h
    cases ir with
    | err st m => simp [login]
    | ok u => simp [login, h]

/-- Witness for C4: a rejected secure-login call (upstream answers 401
to the credentials) yields false and leaves the unset session unset. -/
theorem login_spec_witness :
    (login ⟨none, none⟩
        ⟨.ok (), .err (some 401) "Request failed with status code 401"⟩).1 = false ∧
    (login ⟨none, none⟩
        ⟨.ok (), .err (some 401) "Request failed with status code 401"⟩).2 =
      ⟨none, none⟩ := by
  have h := login_spec ⟨none, none⟩
    ⟨.ok (), .err (some 401) "Request failed with status code 401"⟩
  have hf := h.2.2.1 (some 401) "Request failed with status code 401" rfl
  exact ⟨hf, h.1 hf⟩

/-- Witness for C8 at a concrete community and environment. -/
theorem getPosts_request_construction_witness :
    getPosts "42" none none none envOk 1 =
      ⟨some (.success (.vObj 1)),
       [⟨"/v1/community/" ++ "42" ++ "/posts", 1, 20, "RECENT", none⟩], 0⟩ ∧
    getPosts "42" (some 1) (some 20) (some "artist") envOk 1 =
      ⟨some (.success (.vObj 1)),
       [⟨"/v1/community/" ++ "42" ++ "/posts", 1, 20, "RECENT", some "ARTIST"⟩], 0⟩ :=
  getPosts_request_construction "42" envOk (.vObj 1) rfl

/-- Claim C6 as stated fails at a concrete input: storing the value
false and reading it back immediately (no time has passed, so the TTL
has certainly not elapsed) yields null, not false, because Cache.get
returns null whenever the stored value is falsy. -/
theorem cache_roundtrip_fails_for_falsy_value :
    Cache.get (Cache.set emptyCache 0 "k" (.vBool false) none) 0 "k" = .vNull ∧
    JsValue.vNull ≠ JsValue.vBool false := by
  constructor
  · rfl
  · decide

/-- Claim C6 amended: set immediately followed by get (at any read
instant not later than the expiry instant) returns the stored value
when that value is truthy; when the stored value is falsy (false, 0,
the empty string, null, undefined) get reports null even though the
entry is present. -/
theorem cache_roundtrip (c : NodeCache) (now now' : Nat) (key : String)
    (v : JsValue) (ttl : Option Nat)
    (h : now' ≤ now + (ttl.getD DEFAULT_TTL) * 1000) :
    Cache.get (Cache.set c now key v ttl) now' key =
      if v.truthy then v else .vNull := by
  have hkey : (Cache.set c now key v ttl).store key =
      some ⟨v, if ttl.getD DEFAULT_TTL = 0 then 0
               else now + ttl.getD DEFAULT_TTL * 1000⟩ := by
    simp [Cache.set]
  unfold Cache.get NodeCache.nGet
  rw [hkey]
  by_cases h0 : ttl.getD DEFAULT_TTL = 0
  · simp [h0]
  · have hlt : ¬ (now + ttl.getD DEFAULT_TTL * 1000 < now') := by omega
    simp [h0, hlt]

/-- Witness for the amended C6: a truthy string value round-trips. -/
theorem cache_roundtrip_witness :
    Cache.get (Cache.set emptyCache 0 "k" (.vStr "x") none) 0 "k" = .vStr "x" := by
  have h := cache_roundtrip emptyCache 0 0 "k" (.vStr "x") none (by decide)
  simpa using h

/-- Claim C7: an entry stored with a positive TTL of T seconds and read
strictly after T seconds have elapsed (read instant beyond the expiry
instant, milliseconds) is reported absent (null); and a set that does
not supply a ttl argument behaves exactly as a set with the default TTL
of 300 seconds. -/
theorem cache_ttl_expiry (c : NodeCache) (now now' : Nat) (key : String)
    (v : JsValue) (T : Nat) (hT : 0 < T) (h : now + T * 1000 < now') :
    Cache.get (Cache.set c now key v (some T)) now' key = .vNull ∧
    ∀ (c' : NodeCache) (n : Nat) (k : String) (w : JsValue),
      Cache.set c' n k w none = Cache.set c' n k w (some 300) := by
  constructor
  · have hkey : (Cache.set c now key v (some T)).store key =
        some ⟨v, if T = 0 then 0 else now + T * 1000⟩ := by
      simp [Cache.set]
    unfold Cache.get NodeCache.nGet
    rw [hkey]
    have h0 : ¬ (T = 0) := by omega
    simp [h0, h]
  · intro c' n k w
    rfl

/-- Witness for C7: a 5-second entry read 5001 milliseconds later is
absent. -/
theorem cache_ttl_expiry_witness :
    Cache.get (Cache.set emptyCache 0 "k" (.vStr "x") (some 5)) 5001 "k" = .vNull :=
  (cache_ttl_expiry emptyCache 0 5001 "k" (.vStr "x") 5 (by decide) (by decide)).1

/-- Claim C9 as stated fails at a concrete input: the rss and widget
routes sit behind cacheMiddleware but end their responses through
res.send, which the middleware does not intercept — such a request
completes with status 200 and yet no cache entry is written for its
key, refuting the if-and-only-if. -/
theorem cacheMiddleware_200_without_write :
    ((cacheMiddleware emptyCache 0 "widget" "/api/widgets/latest/1"
        (.send 200 "html")).2).completed200 = true ∧
    ((cacheMiddleware emptyCache 0 "widget" "/api/widgets/latest/1"
        (.send 200 "html")).1).store
      (Cache.generateKey "widget" "/api/widgets/latest/1") = none := by
  constructor
  · rfl
  · rfl

/-- Claim C9 amended: on a request that hits the cache the store is
unchanged; on a miss, an entry is written exactly when the handler ends
the response through res.json with statusCode 200 (with the default
TTL); a non-200 res.json, a response ended through res.send — whatever
its status — and a failed or unfinished response all leave the cache
unchanged. -/
theorem cacheMiddleware_writes_only_json200 (c : NodeCache) (now : Nat)
    (ns url : String) (handler : HandlerAction) :
    ((Cache.get c now (Cache.generateKey ns url)).truthy = true →
        (cacheMiddleware c now ns url handler).1 = c) ∧
    ((Cache.get c now (Cache.generateKey ns url)).truthy = false →
      (∀ d, handler = .json 200 d →
          cacheMiddleware c now ns url handler =
            (Cache.set c now (Cache.generateKey ns url) d none, .jsonEnd 200 d)) ∧
      (∀ st d, handler = .json st d → st ≠ 200 →
          (cacheMiddleware c now ns url handler).1 = c) ∧
      (∀ st b, handler = .send st b →
          (cacheMiddleware c now ns url handler).1 = c) ∧
      (∀ m, handler = .noResponse m →
          (cacheMiddleware c now ns url handler).1 = c)) := by
  constructor
  · intro hhit
    simp [cacheMiddleware, hhit]
  · intro hmiss
    refine ⟨?_, ?_, ?_, ?_⟩
    · rintro d rfl
      simp [cacheMiddleware, hmiss]
    · rintro st d rfl hne
      simp [cacheMiddleware, hmiss, hne]
    · rintro st b rfl
      simp [cacheMiddleware, hmiss]
    · rintro m rfl
      simp [cacheMiddleware, hmiss]

/-- Witness for the amended C9: a missing key with a 200 res.json
handler gets the entry written, and a 500 res.json handler leaves the
empty cache empty. -/
theorem cacheMiddleware_writes_only_json200_witness :
    cacheMiddleware emptyCache 0 "posts" "/api/communities/1/posts"
        (.json 200 (.vObj 3)) =
      (Cache.set emptyCache 0
        (Cache.generateKey "posts" "/api/communities/1/posts") (.vObj 3) none,
       .jsonEnd 200 (.vObj 3)) ∧
    (cacheMiddleware emptyCache 0 "posts" "/api/communities/1/posts"
        (.json 500 (.vObj 3))).1 = emptyCache := by
  constructor
  · exact ((cacheMiddleware_writes_only_json200 emptyCache 0 "posts"
      "/api/communities/1/posts" (.json 200 (.vObj 3))).2 (by decide)).1
      (.vObj 3) rfl
  · exact (((cacheMiddleware_writes_only_json200 emptyCache 0 "posts"
      "/api/communities/1/posts" (.json 500 (.vObj 3))).2 (by decide)).2.1)
      500 (.vObj 3) rfl (by decide)

/-- Claim C10: Cache.generateKey is not injective; the distinct pairs
(a:b, c) and (a, b:c) produce the same key a:b:c, so a namespace or
identifier containing the separator can make different requests collide
on one cache entry. -/
theorem generateKey_not_injective :
    Cache.generateKey "a:b" "c" = Cache.generateKey "a" "b:c" ∧
    ("a:b", "c") ≠ (("a", "b:c") : String × String) := by
  constructor
  · rfl
  · decide

end Weverse
